import Mathlib

/-!
Verification of the conversation state machine and dual-provider response
aggregator of `lab4.py` (RoadmapGeneratorBot).

The Python program is shallowly embedded: the aiogram FSM state of one
conversation is a `Session` (the FSM state name plus the per-session data
dict), handlers are pure functions from `Session` (and the incoming message
text) to a new `Session` plus the messages sent, and each HTTP client is a
function of the (injected) HTTP outcome — transport error, or a status code
with a parsed-or-malformed JSON body.
-/

namespace Lab4

/-- Python `str.strip()` on the incoming text: drop leading and trailing
whitespace. Modelled directly on the character list of the string so that
it evaluates by kernel reduction. -/
def pyStrip (s : String) : String :=
  ⟨((s.data.dropWhile Char.isWhitespace).reverse.dropWhile Char.isWhitespace).reverse⟩

/-- Python `dict` lookup with a default, `data.get(k, dflt)`
(`YandexGPTClient._build_prompt` uses `data.get(field, '-')`). The dict is
modelled as an association list in insertion order. -/
def dictGet (d : List (String × String)) (k dflt : String) : String :=
  match d.find? (fun p => p.1 == k) with
  | some p => p.2
  | none => dflt

/-- Python `dict` assignment `d[k] = v`: overwrite in place when the key is
present (keeping its insertion position), append otherwise. -/
def dictSet (d : List (String × String)) (k v : String) : List (String × String) :=
  if d.any (fun p => p.1 == k) then
    d.map (fun p => if p.1 == k then (k, v) else p)
  else
    d ++ [(k, v)]

/-- `RoadmapGeneratorBot._STATE_ORDER` (lab4.py lines 174-180): the fixed
question order. -/
def _STATE_ORDER : List String :=
  ["profession", "experience", "goals", "skills", "preferences"]

/-- `RoadmapGeneratorBot._QUESTIONS` (lab4.py lines 182-188): prompt text per
field, as an association list like the Python dict literal. -/
def _QUESTIONS : List (String × String) :=
  [("profession", "📌 Назовите профессию или должность, для которой хотите получить роадмап:"),
   ("experience", "🎯 Какой у вас текущий уровень опыта?\n(начинающий/средний/профессионал)"),
   ("goals", "🚀 Какие главные карьерные цели вы хотите достичь в ближайшие 3 года?"),
   ("skills", "💡 Перечислите ваши текущие ключевые навыки (через запятую):"),
   ("preferences", "🌟 Есть ли особые предпочтения или ограничения?\n(удаленная работа, индустрия и т.д.)")]

/-- Lookup in `_QUESTIONS`; the Python subscript `self._QUESTIONS[name]` would
raise `KeyError` on a missing key, but every call site passes one of the five
field names, all of which are keys, so the `getD` default is unreachable. -/
def questionFor (name : String) : String :=
  dictGet _QUESTIONS name ""

/-- One conversation's aiogram FSM state: the current `Form` state name
(`none` when no state is set, i.e. no active form) and the per-session data
dict kept by `MemoryStorage` / `state.proxy()`. -/
structure Session where
  state : Option String
  data : List (String × String)
deriving DecidableEq, Repr

/-- A fresh conversation: no FSM state set, empty data dict. -/
def initSession : Session := ⟨none, []⟩

/-- `RoadmapGeneratorBot._ask_question` (lab4.py lines 220-222): `state.set()`
(which changes only the FSM state name, not the stored data) and send the
question for that state. -/
def _ask_question (s : Session) (stateName : String) : Session × String :=
  (⟨some stateName, s.data⟩, questionFor stateName)

/-- The welcome message sent by `start_command` (lab4.py lines 213-217). -/
def WELCOME : String :=
  "🌟 Добро пожаловать в CareerRoadmapBot!\nЯ помогу составить персонализированный карьерный план развития.\nОтветьте на несколько вопросов для начала:"

/-- `RoadmapGeneratorBot.start_command` (lab4.py lines 212-218): sends the
welcome message, then `_ask_question(message, Form.profession)`. Returns the
new session and the list of messages sent. -/
def start_command (s : Session) : Session × List String :=
  let asked := _ask_question s "profession"
  (asked.1, [WELCOME, asked.2])

/-- What `process_answer` does after storing the answer: ask the next
question, complete (hand the stored answers to roadmap generation), or — when
`state.get_state()` is `None` — return without doing anything. -/
inductive Action where
  | noop
  | prompt (q : String)
  | completed (answers : List (String × String))
deriving DecidableEq, Repr

/-- The next-state computation of `process_answer` (lab4.py lines 235-239):
`idx = _STATE_ORDER.index(name)` (a `ValueError`, caught, leaves the next
state `None`), then `_STATE_ORDER[idx + 1]` if `idx + 1 < len` else `None`. -/
def nextStateName (name : String) : Option String :=
  match _STATE_ORDER.findIdx? (fun x => x == name) with
  | some idx =>
      if idx + 1 < _STATE_ORDER.length then _STATE_ORDER.get? (idx + 1) else none
  | none => none

/-- `RoadmapGeneratorBot.process_answer` (lab4.py lines 224-244): if no FSM
state is set, return immediately; otherwise store `message.text.strip()` under
the current state name, then either ask the next question or run
`_generate_and_send_roadmap` (whose `finally` block runs `state.finish()`,
clearing both the FSM state and the data dict — hence the `⟨none, []⟩`
session on completion; the data snapshot used for generation is carried in
`Action.completed`). -/
def process_answer (s : Session) (text : String) : Session × Action :=
  match s.state with
  | none => (s, Action.noop)
  | some name =>
      let data := dictSet s.data name (pyStrip text)
      match nextStateName name with
      | some nxt => (⟨some nxt, data⟩, Action.prompt (questionFor nxt))
      | none => (⟨none, []⟩, Action.completed data)

/-- The aiogram dispatcher sends a plain text message to `process_answer`
only when the session's FSM state is one of the five registered `Form`
states (lab4.py lines 200-209). -/
def handlesAnswer (s : Session) : Bool :=
  match s.state with
  | some n => _STATE_ORDER.contains n
  | none => false

/-- An external event for one conversation: the `/start` command (handled in
any state) or a plain text message (handled only in the five form states). -/
inductive Event where
  | start
  | msg (text : String)
deriving DecidableEq, Repr

/-- Dispatcher-level transition on the session state. -/
def step (s : Session) (e : Event) : Session :=
  match e with
  | Event.start => (start_command s).1
  | Event.msg t => if handlesAnswer s then (process_answer s t).1 else s

/-- Fold a list of events from the fresh conversation. -/
def run (es : List Event) : Session :=
  es.foldl step initSession

/-! HTTP clients. The outbound request payloads are built from the user data;
the inbound side of the exchange is injected as an `HttpOutcome`. -/

/-- A JSON value, for provider payloads and response bodies. -/
inductive JVal where
  | null
  | bool (b : Bool)
  | num (n : Int)
  | str (s : String)
  | arr (elems : List JVal)
  | obj (fields : List (String × JVal))

/-- JSON object field access `j[k]` (first binding of the key). A non-object
or a missing key gives `none` — in Python a `TypeError`/`KeyError`, caught by
the clients' blanket `except Exception`. -/
def jGet (j : JVal) (k : String) : Option JVal :=
  match j with
  | JVal.obj fields => (fields.find? (fun p => p.1 == k)).map Prod.snd
  | _ => none

/-- JSON array indexing `j[i]`; out of range or a non-array gives `none`
(Python `IndexError`/`TypeError`, caught the same way). One divergence in
the middle of a path: Python indexes a *string* by `[0]` to its first
character without raising, and then the next subscript `["message"]` on
that character raises `TypeError`; since `[0]` is never the last subscript
of either provider's path, the end-to-end result (`None`) is the same as
failing here. -/
def jIdx (j : JVal) (i : Nat) : Option JVal :=
  match j with
  | JVal.arr elems => elems.get? i
  | _ => none

/-- What came back from one HTTP POST: a transport-level error (connect
failure, timeout, ...), or a status code together with the response body —
`none` when `response.json()` cannot parse it. -/
inductive HttpOutcome where
  | transportError (msg : String)
  | response (status : Nat) (body : Option JVal)

/-- httpx `Response.raise_for_status()` raises unless the status code is a
2xx success; the clients catch the raised error and return `None`. -/
def isSuccessStatus (status : Nat) : Bool :=
  200 ≤ status && status < 300

/-- `YandexGPTClient._build_prompt` (lab4.py lines 121-132): the base prompt,
an f-string over `data.get(field, '-')` in the fixed field order. -/
def _build_prompt (data : List (String × String)) : String :=
  "Составь детальный карьерный роадмап для профессии " ++ dictGet data "profession" "-" ++
  ". Учитывая что у пользователя текущий опыт: " ++ dictGet data "experience" "-" ++
  ", карьерные цели: " ++ dictGet data "goals" "-" ++
  ", текущие навыки: " ++ dictGet data "skills" "-" ++
  ", и предпочтения: " ++ dictGet data "preferences" "-" ++
  ". Включи:\n1. Поэтапный план развития\n2. Рекомендуемые обучающие ресурсы\n3. Ключевые навыки для развития\n4. Рекомендации по нетворкингу\n5. Потенциальные карьерные треки"

/-- The fixed system persona of the YandexGPT request (lab4.py line 105). -/
def YANDEX_PERSONA : String :=
  "Ты карьерный консультант. Составь детальный персонализированный роадмап."

/-- The request body `payload` of `YandexGPTClient.generate_roadmap`
(lab4.py lines 95-109), as a JSON value. `temperature: 0.7` is kept as the
pair (7, 10) since the embedding has no floats; it never influences control
flow. -/
def yandexPayload (user_data : List (String × String)) (model_uri : String) : JVal :=
  JVal.obj
    [("modelUri", JVal.str model_uri),
     ("completionOptions", JVal.obj
        [("stream", JVal.bool false),
         ("temperature", JVal.arr [JVal.num 7, JVal.num 10]),
         ("maxTokens", JVal.num 1500)]),
     ("messages", JVal.arr
        [JVal.obj [("role", JVal.str "system"), ("text", JVal.str YANDEX_PERSONA)],
         JVal.obj [("role", JVal.str "user"), ("text", JVal.str (_build_prompt user_data))]])]

/-- The success-path extraction of `YandexGPTClient.generate_roadmap`
(lab4.py line 116): the subscript chain
`response.json()["result"]["alternatives"][0]["message"]["text"]`. Pure
path navigation: `none` when a subscript raises (`KeyError`, `IndexError`,
`TypeError`), and otherwise the value at the path, whatever its type —
Python performs no check that the leaf is a string. -/
def extractYandexValue (body : JVal) : Option JVal :=
  ((((jGet body "result").bind (fun j => jGet j "alternatives")).bind
      (fun j => jIdx j 0)).bind (fun j => jGet j "message")).bind
      (fun j => jGet j "text")

/-- `YandexGPTClient.generate_roadmap` (lab4.py lines 94-119): POST the
payload; on any exception (transport error, `raise_for_status` on a non-2xx
status, JSON parse failure, or a subscript error while extracting) log and
return `None`; otherwise return the value at the extraction path verbatim.
The Python annotation promises `Optional[str]`, but nothing enforces it: a
non-string leaf at the path is returned as-is, hence the `Option JVal`
result type. -/
def generate_roadmap (outcome : HttpOutcome) : Option JVal :=
  match outcome with
  | HttpOutcome.transportError _ => none
  | HttpOutcome.response status body =>
      if isSuccessStatus status then
        match body with
        | some j => extractYandexValue j
        | none => none
      else none

/-- The request body `payload` of `HyperbolicClient.generate_analysis`
(lab4.py lines 149-155). `temperature: 0.1` and `top_p: 0.9` are kept as
numerator/denominator pairs; they never influence control flow. -/
def hyperbolicPayload (prompt : String) : JVal :=
  JVal.obj
    [("messages", JVal.arr [JVal.obj [("role", JVal.str "user"), ("content", JVal.str prompt)]]),
     ("model", JVal.str "meta-llama/Llama-3.3-70B-Instruct"),
     ("max_tokens", JVal.num 512),
     ("temperature", JVal.arr [JVal.num 1, JVal.num 10]),
     ("top_p", JVal.arr [JVal.num 9, JVal.num 10])]

/-- The success-path extraction of `HyperbolicClient.generate_analysis`
(lab4.py line 161): the subscript chain
`response.json()["choices"][0]["message"]["content"]`, again with no check
that the leaf is a string. -/
def extractHyperbolicValue (body : JVal) : Option JVal :=
  (((jGet body "choices").bind (fun j => jIdx j 0)).bind
      (fun j => jGet j "message")).bind (fun j => jGet j "content")

/-- `HyperbolicClient.generate_analysis` (lab4.py lines 148-164): same
error discipline and (unchecked) result typing as `generate_roadmap`, with
the Hyperbolic extraction path. -/
def generate_analysis (outcome : HttpOutcome) : Option JVal :=
  match outcome with
  | HttpOutcome.transportError _ => none
  | HttpOutcome.response status body =>
      if isSuccessStatus status then
        match body with
        | some j => extractHyperbolicValue j
        | none => none
      else none

/-! Aggregation and the final report. -/

/-- The fallback text for the YandexGPT section (lab4.py line 278). -/
def YANDEX_FALLBACK : String := "Не удалось получить основной роадмап"

/-- The fallback text for the Hyperbolic section (lab4.py line 279). -/
def HYPERBOLIC_FALLBACK : String := "Не удалось получить дополнительные рекомендации"

/-- The header of the primary (YandexGPT) report section (lab4.py line 278). -/
def YANDEX_HEADER : String := "🚀 **Основной роадмап от YandexGPT:**\n\n"

/-- The header of the supplementary (Hyperbolic) report section (lab4.py
line 279). -/
def HYPERBOLIC_HEADER : String := "🔍 **Дополнительные рекомендации от Llama‑3:**\n\n"

/-- The local `safe` of `_format_responses` (lab4.py lines 274-275):
`text.strip() if text else default`. Python truthiness: `None` and the empty
string are falsy, a whitespace-only string is truthy (and then strips to
the empty string). -/
def safe (text : Option String) (dflt : String) : String :=
  match text with
  | some t => if t = "" then dflt else pyStrip t
  | none => dflt

/-- `RoadmapGeneratorBot._format_responses` (lab4.py lines 272-280): the
two-section report, primary section first. -/
def _format_responses (yandex hyperbolic : Option String) : String :=
  YANDEX_HEADER ++ safe yandex YANDEX_FALLBACK ++ "\n\n" ++
  HYPERBOLIC_HEADER ++ safe hyperbolic HYPERBOLIC_FALLBACK

/-- How many of the report's two section bodies are the fallback text. -/
def fallbackCount (yandex hyperbolic : Option String) : Nat :=
  (if safe yandex YANDEX_FALLBACK = YANDEX_FALLBACK then 1 else 0) +
  (if safe hyperbolic HYPERBOLIC_FALLBACK = HYPERBOLIC_FALLBACK then 1 else 0)

/-! The provider results reaching `_format_responses` are whatever the
extraction returned — `None` or an arbitrary JSON value. The following
mirrors `safe` and `_format_responses` over those dynamic values, including
the exception a non-string truthy value raises at `text.strip()`. -/

/-- Python truthiness of a JSON value: `None`, `False`, `0`, `""`, `[]` and
an empty dict are falsy, everything else truthy. -/
def pyTruthy (v : JVal) : Bool :=
  match v with
  | JVal.null => false
  | JVal.bool b => b
  | JVal.num n => n != 0
  | JVal.str s => s != ""
  | JVal.arr elems => !elems.isEmpty
  | JVal.obj fields => !fields.isEmpty

/-- `v.strip()` on a dynamic value: defined for a string, an
`AttributeError` otherwise. -/
def pyStripValue (v : JVal) : Except String String :=
  match v with
  | JVal.str s => Except.ok (pyStrip s)
  | _ => Except.error "AttributeError"

/-- The local `safe` of `_format_responses` evaluated at a dynamic value:
`text.strip() if text else default`. A falsy value (including a non-string
one) takes the default without touching `.strip()`; a truthy non-string
raises. -/
def safeValue (text : Option JVal) (dflt : String) : Except String String :=
  match text with
  | none => Except.ok dflt
  | some v => if pyTruthy v then pyStripValue v else Except.ok dflt

/-- `RoadmapGeneratorBot._format_responses` applied to the dynamic provider
results: builds the report left to right (so the Yandex section is
evaluated first), or raises the first `AttributeError`. On string-or-`None`
inputs this agrees with `_format_responses`. -/
def format_responses_value (yandex hyperbolic : Option JVal) : Except String String :=
  (safeValue yandex YANDEX_FALLBACK).bind (fun a =>
    (safeValue hyperbolic HYPERBOLIC_FALLBACK).map (fun b =>
      YANDEX_HEADER ++ a ++ "\n\n" ++ HYPERBOLIC_HEADER ++ b))

/-- The wrapper sentence prepended to the base prompt for the Hyperbolic
provider (lab4.py line 257). -/
def HYPERBOLIC_WRAPPER : String := "Дай дополнительные рекомендации для этого запроса: "

/-- The prompt passed to `generate_analysis` inside
`_generate_and_send_roadmap` (lab4.py lines 256-258). -/
def hyperbolicPrompt (user_data : List (String × String)) : String :=
  HYPERBOLIC_WRAPPER ++ _build_prompt user_data

/-- The progress message sent at the start of `_generate_and_send_roadmap`
(lab4.py line 248). -/
def ANALYZING : String := "🔍 Анализирую данные... Это займет 1‑2 минуты"

/-- The generic failure message of the `except` branch (lab4.py line 264). -/
def GENERIC_FAILURE : String := "⚠️ Произошла ошибка при генерации роадмапа"

/-- The message sent from the `finally` block (lab4.py lines 268-270). -/
def DONE : String := "✅ Готово! Можете начать заново с /start"

/-- The message the user receives from the `try` body of
`_generate_and_send_roadmap` once both provider results are in: the
formatted report, or — when formatting itself raises (a truthy non-string
leaf hit `.strip()`) — the generic failure message from the `except`
branch. -/
def reportMessage (yandex hyperbolic : Option JVal) : String :=
  match format_responses_value yandex hyperbolic with
  | Except.ok r => r
  | Except.error _ => GENERIC_FAILURE

/-- `RoadmapGeneratorBot._generate_and_send_roadmap` (lab4.py lines
247-270). `user_data` is the `state.get_data()` snapshot, the two
`HttpOutcome`s are the responses the `asyncio.gather` call collects, and
`crash` injects any further unexpected exception raised inside the `try`
block (sending the reply, the Markdown parse, ...; its string is the
exception text, which the handler only logs). Formatting the report over
the raw provider values — including the `AttributeError` a truthy
non-string leaf raises inside `safe` — is modelled explicitly by
`reportMessage`. The `finally` block always runs `state.finish()` —
resetting the session to no state and empty data — and sends the done
message. Returns the finished session and the messages sent. -/
def generate_and_send (_user_data : List (String × String))
    (yOut hOut : HttpOutcome) (crash : Option String) : Session × List String :=
  let body :=
    match crash with
    | none =>
        [reportMessage (generate_roadmap yOut) (generate_analysis hOut)]
    | some _ => [GENERIC_FAILURE]
  (⟨none, []⟩, ANALYZING :: body ++ [DONE])

/-! Derived observations and the session invariant. -/

/-- The answers visible after `process_answer`: the data dict of the new
session, or — on completion — the snapshot handed to roadmap generation
(the session itself is cleared by `state.finish()`). -/
def answersAfter (s : Session) (t : String) : List (String × String) :=
  match (process_answer s t).2 with
  | Action.completed d => d
  | _ => (process_answer s t).1.data

/-- The invariant exactly as the specification states it: the answers
mapping contains entries only for fields strictly before `currentStep` in
the field order. (Trivially true with no active step.) -/
def answersOnlyBefore (s : Session) : Bool :=
  match s.state with
  | none => true
  | some n =>
      match _STATE_ORDER.findIdx? (fun x => x == n) with
      | some i => s.data.all (fun p => (_STATE_ORDER.take i).contains p.1)
      | none => false

/-- The strengthened session invariant of the amended claim C5: with no
active step the data dict is empty (a fresh or just-finished session), and
in the step for field number `i` the stored keys are exactly the fields
strictly before it, in order. -/
def invB (s : Session) : Bool :=
  match s.state with
  | none => s.data == ([] : List (String × String))
  | some n =>
      (n == "profession" && s.data.map Prod.fst == ([] : List String)) ||
      (n == "experience" && s.data.map Prod.fst == ["profession"]) ||
      (n == "goals" && s.data.map Prod.fst == ["profession", "experience"]) ||
      (n == "skills" && s.data.map Prod.fst == ["profession", "experience", "goals"]) ||
      (n == "preferences" && s.data.map Prod.fst == ["profession", "experience", "goals", "skills"])

/-- Sessions reachable from a fresh conversation when `/start` is only ever
issued while the answer set is empty (a fresh conversation or one whose
previous run completed). Unrestricted reachability is `run`; the restriction
is what the amended claim C5 needs, since a mid-form `/start` does not clear
the stored answers. -/
inductive ReachG : Session → Prop where
  | init : ReachG initSession
  | startCmd (s : Session) : ReachG s → s.data = [] → ReachG (step s Event.start)
  | msg (s : Session) (t : String) : ReachG s → ReachG (step s (Event.msg t))

/-! Helper lemmas. -/

/-- The state reached by `process_answer` does not depend on the message
text: it is computed from the current state name alone. -/
theorem process_answer_state_eq (s : Session) (t t' : String) :
    (process_answer s t).1.state = (process_answer s t').1.state := by
  cases hs : s.state with
  | none => simp [process_answer, hs]
  | some name =>
      cases hn : nextStateName name with
      | none => simp [process_answer, hs, hn]
      | some nxt => simp [process_answer, hs, hn]

/-- Assigning a fresh key to the dict appends it to the key sequence. -/
theorem map_fst_dictSet (d : List (String × String)) (k v : String)
    (hk : k ∉ d.map Prod.fst) :
    (dictSet d k v).map Prod.fst = d.map Prod.fst ++ [k] := by
  have hany : d.any (fun p => p.1 == k) = false := by
    rw [Bool.eq_false_iff]
    intro hcontra
    rcases List.any_eq_true.mp hcontra with ⟨p, hp, hbeq⟩
    exact hk (List.mem_map.mpr ⟨p, hp, beq_iff_eq.mp hbeq⟩)
  simp [dictSet, hany]

/-- `/start` sets the FSM state to profession and leaves the data dict
untouched. -/
theorem step_start (s : Session) : step s Event.start = ⟨some "profession", s.data⟩ := rfl

/-- A plain message with no FSM state set is not dispatched to
`process_answer`. -/
theorem step_msg_none (d : List (String × String)) (t : String) :
    step ⟨none, d⟩ (Event.msg t) = ⟨none, d⟩ := rfl

/-- Transition out of the profession step. -/
theorem step_msg_profession (d : List (String × String)) (t : String) :
    step ⟨some "profession", d⟩ (Event.msg t) =
      ⟨some "experience", dictSet d "profession" (pyStrip t)⟩ := rfl

/-- Transition out of the experience step. -/
theorem step_msg_experience (d : List (String × String)) (t : String) :
    step ⟨some "experience", d⟩ (Event.msg t) =
      ⟨some "goals", dictSet d "experience" (pyStrip t)⟩ := rfl

/-- Transition out of the goals step. -/
theorem step_msg_goals (d : List (String × String)) (t : String) :
    step ⟨some "goals", d⟩ (Event.msg t) =
      ⟨some "skills", dictSet d "goals" (pyStrip t)⟩ := rfl

/-- Transition out of the skills step. -/
theorem step_msg_skills (d : List (String × String)) (t : String) :
    step ⟨some "skills", d⟩ (Event.msg t) =
      ⟨some "preferences", dictSet d "skills" (pyStrip t)⟩ := rfl

/-- Transition out of the preferences step: the form completes and
`state.finish()` clears the session. -/
theorem step_msg_preferences (d : List (String × String)) (t : String) :
    step ⟨some "preferences", d⟩ (Event.msg t) = initSession := rfl

/-- The strengthened invariant holds along every run in which `/start` is
only issued on an empty answer set. -/
theorem reachG_invB (s : Session) (h : ReachG s) : invB s = true := by
  induction h with
  | init => decide
  | startCmd s hs hdata ih =>
      rw [step_start, hdata]
      decide
  | msg s t hs ih =>
      obtain ⟨st, dt⟩ := s
      cases st with
      | none => rw [step_msg_none]; exact ih
      | some n =>
          simp only [invB, Bool.or_eq_true, Bool.and_eq_true, beq_iff_eq] at ih
          rcases ih with ((((⟨rfl, hkeys⟩ | ⟨rfl, hkeys⟩) | ⟨rfl, hkeys⟩) | ⟨rfl, hkeys⟩) | ⟨rfl, hkeys⟩)
          · rw [step_msg_profession]
            have hset := map_fst_dictSet dt "profession" (pyStrip t) (by rw [hkeys]; decide)
            rw [hkeys] at hset
            simp [invB, hset]
          · rw [step_msg_experience]
            have hset := map_fst_dictSet dt "experience" (pyStrip t) (by rw [hkeys]; decide)
            rw [hkeys] at hset
            simp [invB, hset]
          · rw [step_msg_goals]
            have hset := map_fst_dictSet dt "goals" (pyStrip t) (by rw [hkeys]; decide)
            rw [hkeys] at hset
            simp [invB, hset]
          · rw [step_msg_skills]
            have hset := map_fst_dictSet dt "skills" (pyStrip t) (by rw [hkeys]; decide)
            rw [hkeys] at hset
            simp [invB, hset]
          · rw [step_msg_preferences]
            decide

/-- C1: from any session, `start` followed by five answers advances the
current step through exactly profession, experience, goals, skills,
preferences in that order and finishes the form (the session is cleared and
the stored answers are handed to roadmap generation); a sixth plain message
is not handled and `process_answer` would do nothing; and the next step is
a pure function of the current step, never of the answer's content. -/
theorem claim1_fixed_order_progression (s0 : Session) (a1 a2 a3 a4 a5 a6 : String) :
    let s1 := step s0 Event.start
    let s2 := step s1 (Event.msg a1)
    let s3 := step s2 (Event.msg a2)
    let s4 := step s3 (Event.msg a3)
    let s5 := step s4 (Event.msg a4)
    let s6 := step s5 (Event.msg a5)
    s1.state = some "profession" ∧
    s2.state = some "experience" ∧
    s3.state = some "goals" ∧
    s4.state = some "skills" ∧
    s5.state = some "preferences" ∧
    s6 = initSession ∧
    (process_answer s5 a5).2 = Action.completed (dictSet s5.data "preferences" (pyStrip a5)) ∧
    step s6 (Event.msg a6) = s6 ∧
    (process_answer s6 a6).2 = Action.noop ∧
    (∀ s : Session, ∀ t t' : String,
      (process_answer s t).1.state = (process_answer s t').1.state) :=
  ⟨rfl, rfl, rfl, rfl, rfl, rfl, rfl, rfl, rfl, process_answer_state_eq⟩

/-- C4 counterexample: `/start` does not clear previously stored answers.
After `/start`, one answer, and a second `/start`, the current step is back
at the first field but the answer set still holds the old answer — the
claimed reset to an empty answer set does not happen. -/
theorem claim4_counterexample :
    run [Event.start, Event.msg "Engineer", Event.start] =
      ⟨some "profession", [("profession", "Engineer")]⟩ ∧
    (run [Event.start, Event.msg "Engineer", Event.start]).data ≠ [] := by
  decide

/-- C4 amended: `start` sets the current step to the first field
(profession) and sends the welcome message followed by the first field's
prompt text, but it keeps the session's stored answers unchanged (aiogram
`State.set()` changes only the state, not the data dict); old answers are
only overwritten field by field as the new run progresses. -/
theorem claim4_amended (s : Session) :
    start_command s = (⟨some "profession", s.data⟩, [WELCOME, questionFor "profession"]) ∧
    questionFor "profession" =
      "📌 Назовите профессию или должность, для которой хотите получить роадмап:" :=
  ⟨rfl, rfl⟩

/-- C7: an unexpected error inside roadmap generation is reported as the
fixed generic failure message — the messages sent do not depend on the
exception's text, which therefore never reaches the user — and the
`finally` block clears the session (allowing a restart) both on failure and
on success. The success-path message is the report over the raw provider
results; on string-or-absent results it is exactly `_format_responses`,
and when formatting itself raises (a truthy non-string leaf reaching
`.strip()`) the boundary turns that, too, into the generic failure. -/
theorem claim7_boundary_and_cleanup (d : List (String × String))
    (y h : HttpOutcome) (e e' : String) (t u : String) :
    (generate_and_send d y h (some e)).2 = [ANALYZING, GENERIC_FAILURE, DONE] ∧
    generate_and_send d y h (some e) = generate_and_send d y h (some e') ∧
    (generate_and_send d y h (some e)).1 = initSession ∧
    (generate_and_send d y h none).1 = initSession ∧
    (generate_and_send d y h none).2 =
      [ANALYZING, reportMessage (generate_roadmap y) (generate_analysis h), DONE] ∧
    reportMessage (some (JVal.str t)) (some (JVal.str u)) =
      _format_responses (some t) (some u) ∧
    reportMessage none (some (JVal.str u)) = _format_responses none (some u) ∧
    reportMessage (some (JVal.str t)) none = _format_responses (some t) none ∧
    reportMessage none none = _format_responses none none ∧
    reportMessage (some (JVal.num 42)) (some (JVal.str u)) = GENERIC_FAILURE := by
  refine ⟨rfl, rfl, rfl, rfl, rfl, ?_, ?_, ?_, ?_, rfl⟩
  · by_cases ht : t = "" <;> by_cases hu : u = "" <;>
      simp [reportMessage, format_responses_value, safeValue, pyTruthy, pyStripValue,
        Except.bind, Except.map, _format_responses, safe, ht, hu]
  · by_cases hu : u = "" <;>
      simp [reportMessage, format_responses_value, safeValue, pyTruthy, pyStripValue,
        Except.bind, Except.map, _format_responses, safe, hu]
  · by_cases ht : t = "" <;>
      simp [reportMessage, format_responses_value, safeValue, pyTruthy, pyStripValue,
        Except.bind, Except.map, _format_responses, safe, ht]
  · rfl

/-- C5 counterexample: the stated invariant is violated at a reachable
session state. After `/start`, one answer, and a second `/start`, the
current step is the first field (profession) while the answers mapping
still holds an entry for profession itself — not a field strictly before
the current step. -/
theorem claim5_counterexample :
    run [Event.start, Event.msg "x", Event.start] =
      ⟨some "profession", [("profession", "x")]⟩ ∧
    answersOnlyBefore ⟨some "profession", [("profession", "x")]⟩ = false := by
  decide

/-- C5 amended: along every run in which `/start` is only issued while the
answer set is empty (in particular any run that never restarts mid-form),
every reachable session satisfies the invariant: the data dict holds
exactly the fields strictly before the current step, in order, and is empty
when no step is active; and at the moment of completion the snapshot handed
to roadmap generation holds answers for all five fields (the session itself
is then cleared). -/
theorem claim5_amended_invariant (s : Session) (t : String) (h : ReachG s) :
    invB s = true ∧
    (s.state = some "preferences" →
      (process_answer s t).2 =
        Action.completed (dictSet s.data "preferences" (pyStrip t)) ∧
      (dictSet s.data "preferences" (pyStrip t)).map Prod.fst = _STATE_ORDER) := by
  have hinv := reachG_invB s h
  refine ⟨hinv, fun hpref => ?_⟩
  obtain ⟨st, dt⟩ := s
  simp only at hpref
  subst hpref
  simp only [invB, Bool.or_eq_true, Bool.and_eq_true, beq_iff_eq] at hinv
  rcases hinv with ((((⟨habs, -⟩ | ⟨habs, -⟩) | ⟨habs, -⟩) | ⟨habs, -⟩) | ⟨-, hkeys⟩)
  · exact absurd habs (by decide)
  · exact absurd habs (by decide)
  · exact absurd habs (by decide)
  · exact absurd habs (by decide)
  · refine ⟨rfl, ?_⟩
    have hset := map_fst_dictSet dt "preferences" (pyStrip t) (by rw [hkeys]; decide)
    rw [hset, hkeys]
    rfl

/-- Witness for C5 at the concrete run `/start` then four answers: the
invariant holds there, the fifth answer completes the form, and the
completion snapshot holds all five fields. -/
theorem claim5_amended_invariant_witness :
    invB (step (step (step (step (step initSession Event.start) (Event.msg "a"))
      (Event.msg "b")) (Event.msg "c")) (Event.msg "d")) = true ∧
    (process_answer (step (step (step (step (step initSession Event.start) (Event.msg "a"))
        (Event.msg "b")) (Event.msg "c")) (Event.msg "d")) "e").2 =
      Action.completed (dictSet (step (step (step (step (step initSession Event.start)
        (Event.msg "a")) (Event.msg "b")) (Event.msg "c")) (Event.msg "d")).data
        "preferences" (pyStrip "e")) ∧
    (dictSet (step (step (step (step (step initSession Event.start) (Event.msg "a"))
        (Event.msg "b")) (Event.msg "c")) (Event.msg "d")).data
        "preferences" (pyStrip "e")).map Prod.fst = _STATE_ORDER := by
  have h := claim5_amended_invariant
    (step (step (step (step (step initSession Event.start) (Event.msg "a"))
      (Event.msg "b")) (Event.msg "c")) (Event.msg "d")) "e"
    (ReachG.msg _ "d" (ReachG.msg _ "c" (ReachG.msg _ "b" (ReachG.msg _ "a"
      (ReachG.startCmd _ ReachG.init rfl)))))
  exact ⟨h.1, (h.2 rfl).1, (h.2 rfl).2⟩

/-- C8: with an active session, `process_answer` stores the incoming text
stripped of leading and trailing whitespace under the current step's field
name — with no validation, so text that strips to the empty string is
stored all the same — and the state it advances to does not depend on the
text. -/
theorem claim8_trimmed_storage (s : Session) (name : String) (t t' : String)
    (h : s.state = some name) :
    answersAfter s t = dictSet s.data name (pyStrip t) ∧
    (process_answer s t).1.state = (process_answer s t').1.state := by
  refine ⟨?_, process_answer_state_eq s t t'⟩
  cases hn : nextStateName name with
  | none => simp [answersAfter, process_answer, h, hn]
  | some nxt => simp [answersAfter, process_answer, h, hn]

/-- Witness for C8 at a concrete session: a whitespace-only answer is
stored (as the empty string) under the current field, and the successor
state for two different texts coincides. -/
theorem claim8_trimmed_storage_witness :
    answersAfter ⟨some "profession", []⟩ "   " =
      dictSet [] "profession" (pyStrip "   ") ∧
    (process_answer ⟨some "profession", []⟩ "   ").1.state =
      (process_answer ⟨some "profession", []⟩ "xyz").1.state :=
  claim8_trimmed_storage ⟨some "profession", []⟩ "profession" "   " "xyz" rfl

/-- C2: the merge substitutes the fixed fallback string exactly for each
provider that returned no text, and the report is built from the providers'
texts and the fixed headers only — no error value flows into it. With both
texts present the report carries both real (stripped) texts and no fallback;
with one absent it carries exactly one fallback, in that provider's section,
and the other provider's real text; with both absent it carries both
fallbacks. The merge is a total function, so no error propagates. -/
theorem claim2_fallback_substitution (t1 t2 : String)
    (h1 : t1 ≠ "") (h2 : t2 ≠ "")
    (h1f : pyStrip t1 ≠ YANDEX_FALLBACK) (h2f : pyStrip t2 ≠ HYPERBOLIC_FALLBACK) :
    (_format_responses (some t1) (some t2) =
        YANDEX_HEADER ++ pyStrip t1 ++ "\n\n" ++ HYPERBOLIC_HEADER ++ pyStrip t2 ∧
      fallbackCount (some t1) (some t2) = 0) ∧
    (_format_responses none (some t2) =
        YANDEX_HEADER ++ YANDEX_FALLBACK ++ "\n\n" ++ HYPERBOLIC_HEADER ++ pyStrip t2 ∧
      fallbackCount none (some t2) = 1) ∧
    (_format_responses (some t1) none =
        YANDEX_HEADER ++ pyStrip t1 ++ "\n\n" ++ HYPERBOLIC_HEADER ++ HYPERBOLIC_FALLBACK ∧
      fallbackCount (some t1) none = 1) ∧
    (_format_responses none none =
        YANDEX_HEADER ++ YANDEX_FALLBACK ++ "\n\n" ++ HYPERBOLIC_HEADER ++ HYPERBOLIC_FALLBACK ∧
      fallbackCount none none = 2) := by
  simp [_format_responses, safe, fallbackCount, h1, h2, h1f, h2f]

/-- Witness for C2 at the concrete provider texts "A" and "B". -/
theorem claim2_fallback_substitution_witness :
    (_format_responses (some "A") (some "B") =
        YANDEX_HEADER ++ pyStrip "A" ++ "\n\n" ++ HYPERBOLIC_HEADER ++ pyStrip "B" ∧
      fallbackCount (some "A") (some "B") = 0) ∧
    (_format_responses none (some "B") =
        YANDEX_HEADER ++ YANDEX_FALLBACK ++ "\n\n" ++ HYPERBOLIC_HEADER ++ pyStrip "B" ∧
      fallbackCount none (some "B") = 1) ∧
    (_format_responses (some "A") none =
        YANDEX_HEADER ++ pyStrip "A" ++ "\n\n" ++ HYPERBOLIC_HEADER ++ HYPERBOLIC_FALLBACK ∧
      fallbackCount (some "A") none = 1) ∧
    (_format_responses none none =
        YANDEX_HEADER ++ YANDEX_FALLBACK ++ "\n\n" ++ HYPERBOLIC_HEADER ++ HYPERBOLIC_FALLBACK ∧
      fallbackCount none none = 2) :=
  claim2_fallback_substitution "A" "B" (by decide) (by decide) (by decide) (by decide)

/-- C3 counterexample: a malformed 2xx body — well-formed JSON whose
extraction path ends in a non-string leaf — does not yield the failure
value `None`: the subscript chain raises nothing and the leaf (here the
number 42) is returned as the result, in spite of the `Optional[str]`
annotation. -/
theorem claim3_counterexample :
    generate_roadmap (HttpOutcome.response 200 (some (JVal.obj [("result", JVal.obj
      [("alternatives", JVal.arr [JVal.obj [("message", JVal.obj
        [("text", JVal.num 42)])]])])]))) = some (JVal.num 42) ∧
    generate_analysis (HttpOutcome.response 200 (some (JVal.obj [("choices", JVal.arr
      [JVal.obj [("message", JVal.obj [("content", JVal.num 42)])]])]))) =
      some (JVal.num 42) ∧
    some (JVal.num 42) ≠ (none : Option JVal) :=
  ⟨rfl, rfl, Option.some_ne_none _⟩

/-- C3 amended: each provider's generate returns `None` — it never lets the
error escape — on a transport error, on any non-2xx response status, on an
unparseable body, and on a body where the provider-specific subscript chain
fails (missing key, wrong container, index out of range); on a 2xx response
it returns the value at the path verbatim with no type check: a text comes
back verbatim (not re-trimmed or reformatted), and a non-string leaf comes
back as that value rather than as `None`. -/
theorem claim3_amended_provider_result (m : String) (status status2 : Nat)
    (body : Option JVal) (jbadY jbadH jY jH : JVal) (v w : JVal) (t u : String)
    (hst : isSuccessStatus status = false)
    (hst2 : isSuccessStatus status2 = true)
    (hbY : extractYandexValue jbadY = none)
    (hbH : extractHyperbolicValue jbadH = none)
    (hY : extractYandexValue jY = some v)
    (hH : extractHyperbolicValue jH = some w) :
    generate_roadmap (HttpOutcome.transportError m) = none ∧
    generate_analysis (HttpOutcome.transportError m) = none ∧
    generate_roadmap (HttpOutcome.response status body) = none ∧
    generate_analysis (HttpOutcome.response status body) = none ∧
    generate_roadmap (HttpOutcome.response status2 none) = none ∧
    generate_analysis (HttpOutcome.response status2 none) = none ∧
    generate_roadmap (HttpOutcome.response status2 (some jbadY)) = none ∧
    generate_analysis (HttpOutcome.response status2 (some jbadH)) = none ∧
    generate_roadmap (HttpOutcome.response status2 (some jY)) = some v ∧
    generate_analysis (HttpOutcome.response status2 (some jH)) = some w ∧
    (extractYandexValue jY = some (JVal.str t) →
      generate_roadmap (HttpOutcome.response status2 (some jY)) = some (JVal.str t)) ∧
    (extractHyperbolicValue jH = some (JVal.str u) →
      generate_analysis (HttpOutcome.response status2 (some jH)) = some (JVal.str u)) := by
  refine ⟨?_, ?_, ?_, ?_, ?_, ?_, ?_, ?_, ?_, ?_, ?_, ?_⟩ <;>
    simp [generate_roadmap, generate_analysis, hst, hst2, hbY, hbH, hY, hH]

/-- Witness for C3: a concrete transport error, a 503, an unparseable body,
a body whose subscript chain fails, and well-formed bodies whose extracted
texts (with surrounding whitespace) come back verbatim. -/
theorem claim3_amended_provider_result_witness :
    generate_roadmap (HttpOutcome.transportError "connection reset") = none ∧
    generate_analysis (HttpOutcome.transportError "connection reset") = none ∧
    generate_roadmap (HttpOutcome.response 503 (some JVal.null)) = none ∧
    generate_analysis (HttpOutcome.response 503 (some JVal.null)) = none ∧
    generate_roadmap (HttpOutcome.response 200 none) = none ∧
    generate_analysis (HttpOutcome.response 200 none) = none ∧
    generate_roadmap (HttpOutcome.response 200 (some (JVal.obj [("unexpected", JVal.num 1)]))) = none ∧
    generate_analysis (HttpOutcome.response 200 (some (JVal.obj [("unexpected", JVal.num 1)]))) = none ∧
    generate_roadmap (HttpOutcome.response 200 (some (JVal.obj [("result", JVal.obj
      [("alternatives", JVal.arr [JVal.obj [("message", JVal.obj
        [("text", JVal.str "  роадмап ")])]])])]))) = some (JVal.str "  роадмап ") ∧
    generate_analysis (HttpOutcome.response 200 (some (JVal.obj [("choices", JVal.arr
      [JVal.obj [("message", JVal.obj [("content", JVal.str "  совет ")])]])]))) =
      some (JVal.str "  совет ") ∧
    (extractYandexValue (JVal.obj [("result", JVal.obj [("alternatives", JVal.arr [JVal.obj
        [("message", JVal.obj [("text", JVal.str "  роадмап ")])]])])]) =
        some (JVal.str "  роадмап ") →
      generate_roadmap (HttpOutcome.response 200 (some (JVal.obj [("result", JVal.obj
        [("alternatives", JVal.arr [JVal.obj [("message", JVal.obj
          [("text", JVal.str "  роадмап ")])]])])]))) = some (JVal.str "  роадмап ")) ∧
    (extractHyperbolicValue (JVal.obj [("choices", JVal.arr [JVal.obj [("message", JVal.obj
        [("content", JVal.str "  совет ")])]])]) = some (JVal.str "  совет ") →
      generate_analysis (HttpOutcome.response 200 (some (JVal.obj [("choices", JVal.arr
        [JVal.obj [("message", JVal.obj [("content", JVal.str "  совет ")])]])]))) =
        some (JVal.str "  совет ")) :=
  claim3_amended_provider_result "connection reset" 503 200 (some JVal.null)
    (JVal.obj [("unexpected", JVal.num 1)]) (JVal.obj [("unexpected", JVal.num 1)])
    (JVal.obj [("result", JVal.obj [("alternatives", JVal.arr [JVal.obj
      [("message", JVal.obj [("text", JVal.str "  роадмап ")])]])])])
    (JVal.obj [("choices", JVal.arr [JVal.obj [("message", JVal.obj
      [("content", JVal.str "  совет ")])]])])
    (JVal.str "  роадмап ") (JVal.str "  совет ") "  роадмап " "  совет "
    (by decide) (by decide) rfl rfl rfl rfl

/-- C6: the base prompt is a deterministic template over the answers in the
exact order profession, experience, goals, skills, preferences; every field
is rendered (never omitted), with `-` substituted when the field is missing
from the answer dict; and the Hyperbolic provider receives a different
prompt, namely the base prompt with the extra leading recommendation
request sentence. -/
theorem claim6_prompt_template (d : List (String × String)) (k : String)
    (hk : d.find? (fun p => p.1 == k) = none) :
    _build_prompt d =
      "Составь детальный карьерный роадмап для профессии " ++ dictGet d "profession" "-" ++
      ". Учитывая что у пользователя текущий опыт: " ++ dictGet d "experience" "-" ++
      ", карьерные цели: " ++ dictGet d "goals" "-" ++
      ", текущие навыки: " ++ dictGet d "skills" "-" ++
      ", и предпочтения: " ++ dictGet d "preferences" "-" ++
      ". Включи:\n1. Поэтапный план развития\n2. Рекомендуемые обучающие ресурсы\n3. Ключевые навыки для развития\n4. Рекомендации по нетворкингу\n5. Потенциальные карьерные треки" ∧
    dictGet d k "-" = "-" ∧
    ("-" : String) ≠ "" ∧
    hyperbolicPrompt d = HYPERBOLIC_WRAPPER ++ _build_prompt d ∧
    hyperbolicPrompt d ≠ _build_prompt d := by
  refine ⟨rfl, ?_, by decide, rfl, ?_⟩
  · simp [dictGet, hk]
  · intro heq
    have hlen := congrArg String.length heq
    rw [hyperbolicPrompt, String.length_append] at hlen
    have hw : 0 < HYPERBOLIC_WRAPPER.length := by decide
    omega

/-- Witness for C6 at the empty answer dict and the missing field
profession. -/
theorem claim6_prompt_template_witness :
    _build_prompt [] =
      "Составь детальный карьерный роадмап для профессии " ++ dictGet [] "profession" "-" ++
      ". Учитывая что у пользователя текущий опыт: " ++ dictGet [] "experience" "-" ++
      ", карьерные цели: " ++ dictGet [] "goals" "-" ++
      ", текущие навыки: " ++ dictGet [] "skills" "-" ++
      ", и предпочтения: " ++ dictGet [] "preferences" "-" ++
      ". Включи:\n1. Поэтапный план развития\n2. Рекомендуемые обучающие ресурсы\n3. Ключевые навыки для развития\n4. Рекомендации по нетворкингу\n5. Потенциальные карьерные треки" ∧
    dictGet [] "profession" "-" = "-" ∧
    ("-" : String) ≠ "" ∧
    hyperbolicPrompt [] = HYPERBOLIC_WRAPPER ++ _build_prompt [] ∧
    hyperbolicPrompt [] ≠ _build_prompt [] :=
  claim6_prompt_template [] "profession" rfl

/-- C10: a present non-empty provider text becomes the section body
stripped of surrounding whitespace; an absent (`None`) or empty-string text
becomes the fallback; hence a whitespace-only success yields an empty
section body, which is not the fallback text (both fallbacks are
non-empty). -/
theorem claim10_section_text (t dflt : String) (hne : t ≠ "") :
    safe (some t) dflt = pyStrip t ∧
    safe none dflt = dflt ∧
    safe (some "") dflt = dflt ∧
    (pyStrip t = "" → safe (some t) dflt = "") ∧
    YANDEX_FALLBACK ≠ "" ∧
    HYPERBOLIC_FALLBACK ≠ "" := by
  refine ⟨?_, rfl, rfl, ?_, by decide, by decide⟩
  · simp [safe, hne]
  · intro hws
    simp [safe, hne, hws]

/-- Witness for C10 at a whitespace-only provider text: it is accepted as a
success and strips to the empty section body, not the fallback. -/
theorem claim10_section_text_witness :
    safe (some " ") YANDEX_FALLBACK = pyStrip " " ∧
    safe none YANDEX_FALLBACK = YANDEX_FALLBACK ∧
    safe (some "") YANDEX_FALLBACK = YANDEX_FALLBACK ∧
    (pyStrip " " = "" → safe (some " ") YANDEX_FALLBACK = "") ∧
    YANDEX_FALLBACK ≠ "" ∧
    HYPERBOLIC_FALLBACK ≠ "" :=
  claim10_section_text " " YANDEX_FALLBACK (by decide)

end Lab4
